import Mathlib

/-
Verification of the Model Transcoder scripts (convert_to_tflite.py and
convert_vad.py).

The scripts are straight-line Python over the filesystem plus calls into
external libraries (onnxruntime, tensorflow, shutil).  We embed them as
pure functions over an abstract filesystem: a finite map from path strings
to byte contents.  The behaviour of the external model libraries is an
oracle (a ConvEnv record): whether the session load succeeds, and whether
the TFLite conversion inside the try block succeeds and with which bytes.
The standard-library calls with precise documented semantics (str.replace,
shutil.copy, os.path.exists) are embedded faithfully; in particular
shutil.copy raises SameFileError when source and destination are the same
file, and FileNotFoundError when the source is absent — both uncaught by
the scripts.  Directory creation (os.makedirs) has no observable effect in
a path-keyed map and is not represented.  An uncaught exception leaving a
script is represented by Except.error carrying the filesystem state at the
moment the exception escapes; Python terminates such a run abnormally with
exit status 1.
-/

/-- File contents as a sequence of bytes (abstracted to naturals). -/
abbrev Bytes := List Nat

/-- The filesystem: an association list from path strings to file bytes.
Later entries are shadowed by earlier ones, so writing prepends. -/
abbrev FS := List (String × Bytes)

/-- Read a file: the first entry whose path matches, if any.  A result of
none means the path does not exist (os.path.exists is false). -/
def FS.read : FS → String → Option Bytes
  | [], _ => none
  | (q, c) :: rest, p => if p = q then some c else FS.read rest p

/-- Write a file: open(path, "wb") followed by a full write, or the write
half of a copy.  Creates the path or overwrites its contents. -/
def FS.write (fs : FS) (p : String) (c : Bytes) : FS :=
  (p, c) :: fs

/-- Boolean test that the first list is an initial segment of the second
(helper for the left-to-right scan of Python str.replace). -/
def leadsWith : List Char → List Char → Bool
  | [], _ => true
  | _ :: _, [] => false
  | a :: as, b :: bs => a == b && leadsWith as bs

/-- Left-to-right, non-overlapping replacement of every occurrence of old
by new, as Python str.replace performs for a non-empty pattern.  The fuel
argument is a termination device only: one unit is spent per scan
position, and both call sites pass the length of the scanned string with a
non-empty pattern, so the fuel never runs out before the string does. -/
def replaceAllAux (old new : List Char) : Nat → List Char → List Char
  | 0, s => s
  | _ + 1, [] => []
  | fuel + 1, c :: rest =>
    if leadsWith old (c :: rest) then
      new ++ replaceAllAux old new fuel ((c :: rest).drop old.length)
    else
      c :: replaceAllAux old new fuel rest

/-- Python s.replace(old, new) for the non-empty patterns used by the
scripts (".tflite" and ".onnx"). -/
def pyReplace (s old new : String) : String :=
  ⟨replaceAllAux old.data new.data s.data.length s.data⟩

/-- Boolean substring test: does old occur as a contiguous run inside s?
Used only to state hypotheses about output paths. -/
def containsSub (old : List Char) : List Char → Bool
  | [] => old.isEmpty
  | c :: rest => leadsWith old (c :: rest) || containsSub old rest

/-- Python shutil.copy(src, dst) restricted to file destinations: raises
FileNotFoundError when the source is absent, raises SameFileError when
source and destination are the same file (in a map keyed by plain paths,
when the two paths are equal and the file exists), and otherwise writes the
source bytes at the destination. -/
def shutilCopy (fs : FS) (src dst : String) : Except Unit FS :=
  match fs.read src with
  | none => Except.error ()
  | some c => if src = dst then Except.error () else Except.ok (fs.write dst c)

/-- The tagged outcome of the transcoder: a true conversion or a fallback
copy of the source. -/
inductive ConvResult where
  | Converted
  | FallbackCopied
deriving DecidableEq

/-- Oracle for the external model libraries in convert_to_tflite.py and
convert_vad.py.  sessionOk: whether InferenceSession(input_path) (and the
subsequent metadata reads) succeed when the file exists; convResult: the
outcome of the try block of convert_to_tflite — building the wrapper,
tracing and converter.convert() — some bytes on success, none when any
exception is raised there. -/
structure ConvEnv where
  sessionOk : Bool
  convResult : Option Bytes

/-- The hard-coded second fallback destination of convert_to_tflite.py
(line 92). -/
def assetPath : String := "speech_world/assets/models/silero_vad.onnx"

/-- The sibling fallback destination derived from the output path
(convert_to_tflite.py line 87). -/
def sibling_path (output_path : String) : String :=
  pyReplace output_path ".tflite" ".onnx"

/-- convert_to_tflite(input_path, output_path) from convert_to_tflite.py
lines 13-95.  InferenceSession is created outside the try block, so a
missing file or a failed load escapes immediately with no filesystem
effect.  A successful conversion writes its bytes to output_path.  On a
conversion failure the except block copies the input to the sibling path
and then to the hard-coded asset path; an exception raised by either copy
(SameFileError or FileNotFoundError) is itself uncaught and escapes with
the writes performed so far. -/
def convert_to_tflite (env : ConvEnv) (fs : FS) (input_path output_path : String) :
    Except FS (ConvResult × FS) :=
  if (fs.read input_path).isSome && env.sessionOk then
    match env.convResult with
    | some t => Except.ok (ConvResult.Converted, fs.write output_path t)
    | none =>
      match shutilCopy fs input_path (sibling_path output_path) with
      | Except.error _ => Except.error fs
      | Except.ok fs1 =>
        match shutilCopy fs1 input_path assetPath with
        | Except.error _ => Except.error fs1
        | Except.ok fs2 => Except.ok (ConvResult.FallbackCopied, fs2)
  else Except.error fs

/-- How a script run ends: an explicit sys.exit / normal return, or an
uncaught exception (which the Python interpreter turns into exit status 1
after printing a traceback). -/
inductive ExitStatus where
  | exited (code : Nat)
  | uncaught
deriving DecidableEq

/-- The process exit code of an ending. -/
def ExitStatus.code : ExitStatus → Nat
  | ExitStatus.exited c => c
  | ExitStatus.uncaught => 1

/-- The main block of convert_to_tflite.py (lines 97-105): exit 1 when the
hard-coded input file is missing, otherwise run the converter on the
hard-coded paths; a normal return exits 0, an escaping exception ends the
run abnormally. -/
def main_convert (env : ConvEnv) (fs : FS) : ExitStatus × FS :=
  if (fs.read "silero_vad.onnx").isNone then (ExitStatus.exited 1, fs)
  else
    match convert_to_tflite env fs "silero_vad.onnx" "silero_vad.tflite" with
    | Except.ok (_, fs') => (ExitStatus.exited 0, fs')
    | Except.error fs' => (ExitStatus.uncaught, fs')

/-- inspect_model(input_path) from convert_vad.py lines 12-39: load the
session (escapes on failure), print the tensor descriptors, then copy the
input to input_path.replace(".onnx", "_model.onnx").  The copy's own
exceptions are uncaught. -/
def inspect_model (env : ConvEnv) (fs : FS) (input_path : String) : Except FS FS :=
  if (fs.read input_path).isSome && env.sessionOk then
    match shutilCopy fs input_path (pyReplace input_path ".onnx" "_model.onnx") with
    | Except.error _ => Except.error fs
    | Except.ok fs' => Except.ok fs'
  else Except.error fs

/-- The main block of convert_vad.py (lines 41-48). -/
def main_vad (env : ConvEnv) (fs : FS) : ExitStatus × FS :=
  if (fs.read "silero_vad.onnx").isNone then (ExitStatus.exited 1, fs)
  else
    match inspect_model env fs "silero_vad.onnx" with
    | Except.ok fs' => (ExitStatus.exited 0, fs')
    | Except.error fs' => (ExitStatus.uncaught, fs')

/-- The filesystem state after a run of the converter, whether it returned
normally or an exception escaped. -/
def runFS : Except FS (ConvResult × FS) → FS
  | Except.error fs => fs
  | Except.ok (_, fs) => fs

theorem FS.read_write (fs : FS) (w q : String) (c : Bytes) :
    (fs.write w c).read q = if q = w then some c else fs.read q := rfl

theorem replaceAllAux_of_not_contains (old new : List Char) :
    ∀ (fuel : Nat) (s : List Char), containsSub old s = false →
      replaceAllAux old new fuel s = s := by
  intro fuel
  induction fuel with
  | zero => intro s _; rfl
  | succ n ih =>
    intro s h
    cases s with
    | nil => rfl
    | cons c rest =>
      have h' : leadsWith old (c :: rest) = false ∧ containsSub old rest = false := by
        simpa [containsSub, Bool.or_eq_false_iff] using h
      simp [replaceAllAux, h'.1, ih rest h'.2]

theorem pyReplace_of_not_contains (s old new : String)
    (h : containsSub old.data s.data = false) : pyReplace s old new = s := by
  unfold pyReplace
  rw [replaceAllAux_of_not_contains old.data new.data s.data.length s.data h]

theorem convert_guard_fail (env : ConvEnv) (fs : FS) (i o : String)
    (h : ((fs.read i).isSome && env.sessionOk) = false) :
    convert_to_tflite env fs i o = Except.error fs := by
  simp [convert_to_tflite, h]

theorem convert_success (env : ConvEnv) (fs : FS) (i o : String) (t : Bytes)
    (hi : (fs.read i).isSome = true) (hs : env.sessionOk = true)
    (hc : env.convResult = some t) :
    convert_to_tflite env fs i o = Except.ok (ConvResult.Converted, fs.write o t) := by
  simp [convert_to_tflite, hi, hs, hc]

theorem convert_fallback (env : ConvEnv) (fs : FS) (i o : String) (b : Bytes)
    (hb : fs.read i = some b) (hs : env.sessionOk = true)
    (hc : env.convResult = none)
    (h1 : sibling_path o ≠ i) (h2 : assetPath ≠ i) :
    convert_to_tflite env fs i o =
      Except.ok (ConvResult.FallbackCopied,
        (fs.write (sibling_path o) b).write assetPath b) := by
  have hi : (fs.read i).isSome = true := by rw [hb]; rfl
  simp [convert_to_tflite, hi, hs, hc, shutilCopy, hb, FS.read_write,
    Ne.symm h1, Ne.symm h2]

theorem convert_samefile (env : ConvEnv) (fs : FS) (i o : String) (b : Bytes)
    (hb : fs.read i = some b) (hs : env.sessionOk = true)
    (hc : env.convResult = none) (h1 : sibling_path o = i) :
    convert_to_tflite env fs i o = Except.error fs := by
  have hi : (fs.read i).isSome = true := by rw [hb]; rfl
  simp [convert_to_tflite, hi, hs, hc, shutilCopy, hb, h1]

theorem convert_asset_samefile (env : ConvEnv) (fs : FS) (i o : String) (b : Bytes)
    (hb : fs.read i = some b) (hs : env.sessionOk = true)
    (hc : env.convResult = none)
    (h1 : sibling_path o ≠ i) (h2 : assetPath = i) :
    convert_to_tflite env fs i o = Except.error (fs.write (sibling_path o) b) := by
  have hi : (fs.read i).isSome = true := by rw [hb]; rfl
  simp [convert_to_tflite, hi, hs, hc, shutilCopy, hb, FS.read_write,
    Ne.symm h1, h2]

/-- Claim C1 (corrected).  When an exception is raised inside the try block
(building the wrapper or invoking the TFLite conversion), it is caught and
the fallback-copy branch completes with FallbackCopied — provided the
derived sibling path and the hard-coded asset path both differ from the
input path.  (When the sibling path equals the input path, as with the
script's own hard-coded paths, shutil.copy in the except block raises
SameFileError, which IS surfaced to the caller; see the counterexample.) -/
theorem c1_fallback_completes (env : ConvEnv) (fs : FS) (i o : String) (b : Bytes)
    (hb : fs.read i = some b) (hs : env.sessionOk = true)
    (hc : env.convResult = none)
    (h1 : sibling_path o ≠ i) (h2 : assetPath ≠ i) :
    convert_to_tflite env fs i o =
      Except.ok (ConvResult.FallbackCopied,
        (fs.write (sibling_path o) b).write assetPath b) :=
  convert_fallback env fs i o b hb hs hc h1 h2

/-- Claim C1, witness: a concrete failing conversion whose input path
differs from both fallback destinations completes the fallback branch. -/
theorem c1_witness :
    convert_to_tflite ⟨true, none⟩ [("models/silero_vad.onnx", [1, 2])]
        "models/silero_vad.onnx" "out.tflite"
      = Except.ok (ConvResult.FallbackCopied,
          [("speech_world/assets/models/silero_vad.onnx", [1, 2]),
           ("out.onnx", [1, 2]),
           ("models/silero_vad.onnx", [1, 2])]) :=
  c1_fallback_completes ⟨true, none⟩ [("models/silero_vad.onnx", [1, 2])]
    "models/silero_vad.onnx" "out.tflite" [1, 2] rfl rfl rfl (by decide) (by decide)

/-- Claim C1, counterexample.  With the script's own hard-coded paths
(input silero_vad.onnx, output silero_vad.tflite) a failed conversion does
NOT end in FallbackCopied: the sibling path equals the input path, the
first shutil.copy raises SameFileError inside the except block, and the
exception escapes convert_to_tflite with no file written. -/
theorem c1_counterexample :
    convert_to_tflite ⟨true, none⟩ [("silero_vad.onnx", [1, 2, 3])]
        "silero_vad.onnx" "silero_vad.tflite"
      = Except.error [("silero_vad.onnx", [1, 2, 3])] := rfl

/-- Claim C2 (code bug).  In the script's real invocation (source
silero_vad.onnx with a dynamic input shape, so the conversion attempt
fails), the run does not end in FallbackCopied: it dies with an uncaught
SameFileError, no file appears at the hard-coded asset path, and no file
appears at the requested output path.  The filesystem is returned
unchanged. -/
theorem c2_fallback_crashes :
    main_convert ⟨true, none⟩ [("silero_vad.onnx", [1, 2, 3])]
      = (ExitStatus.uncaught, [("silero_vad.onnx", [1, 2, 3])]) ∧
    FS.read [("silero_vad.onnx", [1, 2, 3])]
        "speech_world/assets/models/silero_vad.onnx" = none ∧
    FS.read [("silero_vad.onnx", [1, 2, 3])] "silero_vad.tflite" = none :=
  ⟨rfl, rfl, rfl⟩

/-- Claim C3 (confirmed).  When the hard-coded source file is missing, both
scripts exit with status 1 before any transcoding, and the filesystem is
untouched — no output file is created at any destination. -/
theorem c3_missing_source (env env' : ConvEnv) (fs : FS)
    (h : fs.read "silero_vad.onnx" = none) :
    main_convert env fs = (ExitStatus.exited 1, fs) ∧
    main_vad env' fs = (ExitStatus.exited 1, fs) ∧
    ExitStatus.code (ExitStatus.exited 1) = 1 := by
  refine ⟨?_, ?_, rfl⟩
  · simp [main_convert, h]
  · simp [main_vad, h]

/-- Claim C3, witness: on an empty filesystem both scripts exit 1 and
write nothing. -/
theorem c3_witness :
    main_convert ⟨true, none⟩ [] = (ExitStatus.exited 1, []) ∧
    main_vad ⟨true, none⟩ [] = (ExitStatus.exited 1, []) ∧
    ExitStatus.code (ExitStatus.exited 1) = 1 :=
  c3_missing_source ⟨true, none⟩ ⟨true, none⟩ [] rfl

/-- Claim C4, counterexample.  A missing source file is not the only fatal
condition: with the source file present and a perfectly loadable model
whose conversion fails, the run terminates abnormally (uncaught
SameFileError from the fallback copy) with a non-zero exit code. -/
theorem c4_counterexample :
    (main_convert ⟨true, none⟩ [("silero_vad.onnx", [1, 2, 3])]).1
        = ExitStatus.uncaught ∧
    ExitStatus.code (main_convert ⟨true, none⟩ [("silero_vad.onnx", [1, 2, 3])]).1 ≠ 0 :=
  ⟨rfl, by decide⟩

/-- Claim C4 (corrected).  With the script's hard-coded paths and the
source file present, the process exits 0 exactly when the session load
succeeds AND the conversion attempt itself succeeds; a load failure
escapes outside the try block, and a conversion failure triggers a
fallback copy that raises SameFileError (sibling path = input path), so
both are fatal. -/
theorem c4_exit_zero_iff (env : ConvEnv) (fs : FS) (b : Bytes)
    (hb : fs.read "silero_vad.onnx" = some b) :
    (main_convert env fs).1 = ExitStatus.exited 0 ↔
      (env.sessionOk = true ∧ env.convResult.isSome = true) := by
  have hin : (fs.read "silero_vad.onnx").isNone = false := by rw [hb]; rfl
  cases hs : env.sessionOk with
  | false =>
    have hg : ((fs.read "silero_vad.onnx").isSome && env.sessionOk) = false := by
      rw [hs]; simp
    simp [main_convert, hin, convert_guard_fail env fs _ _ hg, hs]
  | true =>
    cases hc : env.convResult with
    | none =>
      have hsib : sibling_path "silero_vad.tflite" = "silero_vad.onnx" := rfl
      simp [main_convert, hin, convert_samefile env fs _ _ b hb hs hc hsib, hc]
    | some t =>
      have hi : (fs.read "silero_vad.onnx").isSome = true := by rw [hb]; rfl
      simp [main_convert, hin, convert_success env fs _ _ t hi hs hc, hc]

/-- Claim C4, witness: source present, load and conversion succeed, exit
code 0. -/
theorem c4_witness :
    (main_convert ⟨true, some [5]⟩ [("silero_vad.onnx", [9])]).1
      = ExitStatus.exited 0 :=
  (c4_exit_zero_iff ⟨true, some [5]⟩ [("silero_vad.onnx", [9])] [9] rfl).mpr ⟨rfl, rfl⟩

/-- Claim C5, counterexample.  On a completed fallback the requested
output path receives no file at all: the copy lands at the sibling path
instead, so the claim that an output file of positive size exists at the
requested path regardless of outcome is false. -/
theorem c5_counterexample :
    convert_to_tflite ⟨true, none⟩ [("models/silero_vad.onnx", [9])]
        "models/silero_vad.onnx" "out.tflite"
      = Except.ok (ConvResult.FallbackCopied,
          [("speech_world/assets/models/silero_vad.onnx", [9]),
           ("out.onnx", [9]), ("models/silero_vad.onnx", [9])]) ∧
    FS.read [("speech_world/assets/models/silero_vad.onnx", [9]),
        ("out.onnx", [9]), ("models/silero_vad.onnx", [9])] "out.tflite" = none :=
  ⟨rfl, rfl⟩

/-- Claim C5 (corrected).  On a successful conversion the requested output
path holds the converted bytes, of positive size whenever the converter
yields non-empty bytes; on a completed fallback the copies land at the
sibling path and the asset path (byte-identical to the source), not at the
requested output path. -/
theorem c5_output_locations (env : ConvEnv) (fs : FS) (i o : String) (b : Bytes)
    (hs : env.sessionOk = true) (hb : fs.read i = some b) :
    (∀ t, env.convResult = some t → t ≠ [] →
      convert_to_tflite env fs i o = Except.ok (ConvResult.Converted, fs.write o t) ∧
      (fs.write o t).read o = some t ∧ 0 < t.length) ∧
    (env.convResult = none → sibling_path o ≠ i → assetPath ≠ i →
      convert_to_tflite env fs i o =
        Except.ok (ConvResult.FallbackCopied,
          (fs.write (sibling_path o) b).write assetPath b) ∧
      ((fs.write (sibling_path o) b).write assetPath b).read (sibling_path o) = some b ∧
      ((fs.write (sibling_path o) b).write assetPath b).read assetPath = some b) := by
  constructor
  · intro t hc ht
    have hi : (fs.read i).isSome = true := by rw [hb]; rfl
    refine ⟨convert_success env fs i o t hi hs hc, ?_, List.length_pos.mpr ht⟩
    simp [FS.read_write]
  · intro hc h1 h2
    refine ⟨convert_fallback env fs i o b hb hs hc h1 h2, ?_, ?_⟩
    · by_cases h : sibling_path o = assetPath <;> simp [FS.read_write, h]
    · simp [FS.read_write]

/-- Claim C5, witness: a successful conversion writes non-empty bytes at
the requested output path. -/
theorem c5_witness :
    convert_to_tflite ⟨true, some [5]⟩ [("a.onnx", [1])] "a.onnx" "a.tflite"
      = Except.ok (ConvResult.Converted, [("a.tflite", [5]), ("a.onnx", [1])]) ∧
    FS.read [("a.tflite", [5]), ("a.onnx", [1])] "a.tflite" = some [5] ∧
    0 < List.length [5] :=
  (c5_output_locations ⟨true, some [5]⟩ [("a.onnx", [1])] "a.onnx" "a.tflite" [1]
    rfl rfl).1 [5] rfl (by decide)

/-- Claim C6 (confirmed).  A successful conversion writes the converted
bytes to the requested output path with outcome Converted, and every
other destination is unchanged; in particular the hard-coded asset path is
untouched whenever it is not itself the requested output path. -/
theorem c6_success_frame (env : ConvEnv) (fs : FS) (i o : String) (t : Bytes)
    (hi : (fs.read i).isSome = true) (hs : env.sessionOk = true)
    (hc : env.convResult = some t) :
    convert_to_tflite env fs i o = Except.ok (ConvResult.Converted, fs.write o t) ∧
    (fs.write o t).read o = some t ∧
    (∀ p, p ≠ o → (fs.write o t).read p = fs.read p) ∧
    (assetPath ≠ o → (fs.write o t).read assetPath = fs.read assetPath) := by
  refine ⟨convert_success env fs i o t hi hs hc, by simp [FS.read_write], ?_, ?_⟩
  · intro p hp
    simp [FS.read_write, hp]
  · intro hp
    simp [FS.read_write, hp]

/-- Claim C6, witness: a concrete successful conversion writes only the
requested output path and leaves the asset path unchanged (absent). -/
theorem c6_witness :
    convert_to_tflite ⟨true, some [7]⟩ [("m.onnx", [1])] "m.onnx" "m.tflite"
      = Except.ok (ConvResult.Converted, [("m.tflite", [7]), ("m.onnx", [1])]) ∧
    FS.read [("m.tflite", [7]), ("m.onnx", [1])] assetPath
      = FS.read [("m.onnx", [1])] assetPath := by
  have h := c6_success_frame ⟨true, some [7]⟩ [("m.onnx", [1])] "m.onnx" "m.tflite" [7]
    rfl rfl rfl
  exact ⟨h.1, h.2.2.2 (by decide)⟩

/-- Claim C7 (confirmed).  Running the transcoder twice with the same
input path, output path and library behaviour is idempotent in content:
after the second run every path holds exactly the bytes it held after the
first run, in every branch (success, completed fallback, or an escaping
copy exception). -/
theorem c7_idempotent (env : ConvEnv) (fs : FS) (i o p : String) :
    (runFS (convert_to_tflite env (runFS (convert_to_tflite env fs i o)) i o)).read p
      = (runFS (convert_to_tflite env fs i o)).read p := by
  cases hs : env.sessionOk with
  | false =>
    have hg : ((fs.read i).isSome && env.sessionOk) = false := by rw [hs]; simp
    rw [convert_guard_fail env fs i o hg]
    simp only [runFS]
    rw [convert_guard_fail env fs i o hg]
  | true =>
    cases hb : fs.read i with
    | none =>
      have hg : ((fs.read i).isSome && env.sessionOk) = false := by rw [hb]; simp
      rw [convert_guard_fail env fs i o hg]
      simp only [runFS]
      rw [convert_guard_fail env fs i o hg]
    | some b =>
      have hi : (fs.read i).isSome = true := by rw [hb]; rfl
      cases hc : env.convResult with
      | some t =>
        rw [convert_success env fs i o t hi hs hc]
        simp only [runFS]
        have hi2 : ((fs.write o t).read i).isSome = true := by
          rw [FS.read_write]
          by_cases h : i = o
          · rw [if_pos h]; rfl
          · rw [if_neg h, hb]; rfl
        rw [convert_success env (fs.write o t) i o t hi2 hs hc]
        simp only [runFS]
        by_cases hp : p = o <;> simp [FS.read_write, hp]
      | none =>
        by_cases h1 : sibling_path o = i
        · rw [convert_samefile env fs i o b hb hs hc h1]
          simp only [runFS]
          rw [convert_samefile env fs i o b hb hs hc h1]
        · by_cases h2 : assetPath = i
          · rw [convert_asset_samefile env fs i o b hb hs hc h1 h2]
            simp only [runFS]
            have hb2 : (fs.write (sibling_path o) b).read i = some b := by
              rw [FS.read_write, if_neg (fun h => h1 h.symm), hb]
            rw [convert_asset_samefile env (fs.write (sibling_path o) b) i o b
              hb2 hs hc h1 h2]
            simp only [runFS]
            by_cases hp : p = sibling_path o <;> simp [FS.read_write, hp]
          · rw [convert_fallback env fs i o b hb hs hc h1 h2]
            simp only [runFS]
            have hb2 : ((fs.write (sibling_path o) b).write assetPath b).read i
                = some b := by
              rw [FS.read_write, if_neg (fun h => h2 h.symm),
                FS.read_write, if_neg (fun h => h1 h.symm), hb]
            rw [convert_fallback env ((fs.write (sibling_path o) b).write assetPath b)
              i o b hb2 hs hc h1 h2]
            simp only [runFS]
            by_cases hp : p = assetPath
            · simp [FS.read_write, hp]
            · by_cases hp2 : p = sibling_path o <;> simp [FS.read_write, hp, hp2]

/-- Claim C8 (confirmed).  When the source file exists but the session
load fails, the exception is raised outside the try block: the run ends
abnormally with a non-zero status and the filesystem is returned
unchanged, so no fallback copy is performed at any destination. -/
theorem c8_load_failure_fatal (env : ConvEnv) (fs : FS) (b : Bytes)
    (hs : env.sessionOk = false) (hb : fs.read "silero_vad.onnx" = some b) :
    main_convert env fs = (ExitStatus.uncaught, fs) ∧
    ExitStatus.code ExitStatus.uncaught ≠ 0 := by
  have hin : (fs.read "silero_vad.onnx").isNone = false := by rw [hb]; rfl
  have hg : ((fs.read "silero_vad.onnx").isSome && env.sessionOk) = false := by
    rw [hs]; simp
  refine ⟨?_, by decide⟩
  simp [main_convert, hin, convert_guard_fail env fs _ _ hg]

/-- Claim C8, witness: a present but unloadable source file ends the run
abnormally with nothing written. -/
theorem c8_witness :
    main_convert ⟨false, none⟩ [("silero_vad.onnx", [3])]
      = (ExitStatus.uncaught, [("silero_vad.onnx", [3])]) ∧
    ExitStatus.code ExitStatus.uncaught ≠ 0 :=
  c8_load_failure_fatal ⟨false, none⟩ [("silero_vad.onnx", [3])] [3] rfl rfl

/-- Claim C9 (confirmed).  The sibling fallback destination is exactly the
output path with every occurrence of ".tflite" replaced by ".onnx"; when
the output path does not contain ".tflite" the destination is the output
path itself, and after the fallback branch runs the output path holds the
source bytes. -/
theorem c9_sibling_destination (env : ConvEnv) (fs : FS) (i o : String) (b : Bytes)
    (hs : env.sessionOk = true) (hc : env.convResult = none)
    (hb : fs.read i = some b)
    (hno : containsSub ".tflite".data o.data = false) :
    sibling_path o = pyReplace o ".tflite" ".onnx" ∧
    sibling_path o = o ∧
    (runFS (convert_to_tflite env fs i o)).read o = some b := by
  have hid : sibling_path o = o := pyReplace_of_not_contains o _ _ hno
  refine ⟨rfl, hid, ?_⟩
  by_cases h1 : sibling_path o = i
  · rw [convert_samefile env fs i o b hb hs hc h1]
    have ho : o = i := by rw [← hid]; exact h1
    simp only [runFS]
    rw [ho]
    exact hb
  · by_cases h2 : assetPath = i
    · rw [convert_asset_samefile env fs i o b hb hs hc h1 h2]
      simp only [runFS]
      rw [hid, FS.read_write, if_pos rfl]
    · rw [convert_fallback env fs i o b hb hs hc h1 h2]
      simp only [runFS]
      rw [FS.read_write]
      by_cases hoa : o = assetPath
      · rw [if_pos hoa]
      · rw [if_neg hoa, hid, FS.read_write, if_pos rfl]

/-- Claim C9, witness: for an output path with no ".tflite" occurrence the
fallback lands the source bytes at the output path itself. -/
theorem c9_witness :
    sibling_path "out.bin" = pyReplace "out.bin" ".tflite" ".onnx" ∧
    sibling_path "out.bin" = "out.bin" ∧
    (runFS (convert_to_tflite ⟨true, none⟩ [("a.onnx", [3])] "a.onnx" "out.bin")).read
        "out.bin" = some [3] :=
  c9_sibling_destination ⟨true, none⟩ [("a.onnx", [3])] "a.onnx" "out.bin" [3]
    rfl rfl rfl (by decide)

/-- Claim C10 (confirmed).  inspect_model is not purely informational:
every run that returns normally has copied the input, byte for byte, to
the path obtained by replacing ".onnx" with "_model.onnx" in the input
path. -/
theorem c10_inspect_copies (env : ConvEnv) (fs fs' : FS) (i : String) (b : Bytes)
    (hb : fs.read i = some b) (h : inspect_model env fs i = Except.ok fs') :
    fs' = fs.write (pyReplace i ".onnx" "_model.onnx") b ∧
    fs'.read (pyReplace i ".onnx" "_model.onnx") = some b := by
  have hi : (fs.read i).isSome = true := by rw [hb]; rfl
  cases hs : env.sessionOk with
  | false =>
    have hfail : inspect_model env fs i = Except.error fs := by
      simp [inspect_model, hs]
    rw [hfail] at h
    simp at h
  | true =>
    by_cases hd : i = pyReplace i ".onnx" "_model.onnx"
    · have hcopy : shutilCopy fs i (pyReplace i ".onnx" "_model.onnx")
          = Except.error () := by
        unfold shutilCopy
        rw [hb]
        show (if i = pyReplace i ".onnx" "_model.onnx" then Except.error ()
          else Except.ok (fs.write (pyReplace i ".onnx" "_model.onnx") b))
            = Except.error ()
        rw [if_pos hd]
      have hfail : inspect_model env fs i = Except.error fs := by
        simp [inspect_model, hi, hs, hcopy]
      rw [hfail] at h
      simp at h
    · have hok : inspect_model env fs i
          = Except.ok (fs.write (pyReplace i ".onnx" "_model.onnx") b) := by
        simp [inspect_model, hi, hs, shutilCopy, hb, hd]
      rw [hok] at h
      injection h with h2
      subst h2
      exact ⟨rfl, by simp [FS.read_write]⟩

/-- Claim C10, witness: inspecting silero_vad.onnx writes a byte-identical
copy at silero_vad_model.onnx. -/
theorem c10_witness :
    [("silero_vad_model.onnx", [4]), ("silero_vad.onnx", [4])]
      = FS.write [("silero_vad.onnx", [4])]
          (pyReplace "silero_vad.onnx" ".onnx" "_model.onnx") [4] ∧
    FS.read [("silero_vad_model.onnx", [4]), ("silero_vad.onnx", [4])]
        (pyReplace "silero_vad.onnx" ".onnx" "_model.onnx") = some [4] :=
  c10_inspect_copies ⟨true, none⟩ [("silero_vad.onnx", [4])]
    [("silero_vad_model.onnx", [4]), ("silero_vad.onnx", [4])]
    "silero_vad.onnx" [4] rfl rfl
